import Mathlib

/-!
Verification development for the doodly collaborative-drawing server.

Shallow embedding of the server core:
* `src/server/drawing-state.js` (class `DrawingState`): the per-room ordered
  operation log with undo/redo and debounced persistence.
* `src/server/rooms.js` (class `RoomManager`): room membership, sessions,
  disconnect grace timers and room-list broadcasts, modelled as a step
  function over an explicit server state with an explicit event for each
  scheduled timer firing.

JS numbers used as ids/timestamps are modelled as `Nat`, where `0` plays the
role of a JS-falsy value: on these fields the source only ever tests
truthiness (`!x`, `x || y`), under which `undefined` and `0` behave
identically.  Strings from the socket handshake query are likewise modelled
as `Nat` identifiers with `0` for absent/empty (both falsy in JS).
Disk I/O is modelled by explicit disk-content parameters and an explicit
save-effect result (none / debounced / immediate).
-/

namespace Doodly

/-! ### DrawingState: operations and ordering (src/server/drawing-state.js) -/

/-- A drawing operation.  `id` and `timestamp` are the fields the embedded
functions inspect (`0` = JS-falsy, i.e. absent or literally zero); the rest
of the record (type, points, color, width, userId, ...) is never inspected
by `DrawingState` and is collapsed into the opaque `payload`. -/
structure Operation where
  id : Nat
  timestamp : Nat
  payload : Nat
deriving DecidableEq, Repr

/-- Ordering key of `sortOperations`: ascending by `a.timestamp || 0`
(`timestamp` is already `Nat` with `0` for falsy, so the `|| 0` is the
identity here). -/
def tsLE (a b : Operation) : Prop := a.timestamp ≤ b.timestamp

instance : DecidableRel tsLE := fun a b => Nat.decLe a.timestamp b.timestamp

instance : IsTotal Operation tsLE := ⟨fun a b => Nat.le_total a.timestamp b.timestamp⟩

instance : IsTrans Operation tsLE := ⟨fun _ _ _ h h' => Nat.le_trans h h'⟩

/-- `sortOperations` sorts `drawingHistory` in place with the comparator
`(a.timestamp || 0) - (b.timestamp || 0)`.  `Array.prototype.sort` is
guaranteed stable (ES2019), and the stable ascending sort by a fixed key is
unique, so `List.insertionSort` with `tsLE` computes exactly its result. -/
def sortOperations (l : List Operation) : List Operation :=
  List.insertionSort tsLE l

/-- Which kind of persistence a `DrawingState` mutator triggered:
`debounced` models a `debouncedSave()` call (1 s coalescing window),
`immediate` a direct `saveToDisk()` call, `noSave` neither. -/
inductive SaveEffect where
  | noSave
  | debounced
  | immediate
deriving DecidableEq, Repr

/-- The in-memory state of one room's `DrawingState`: `drawingHistory` and
`redoStack` (both JS arrays; the stack top is the array tail, matching
`push`/`pop`). -/
structure DrawingState where
  drawingHistory : List Operation
  redoStack : List Operation
deriving DecidableEq, Repr

/-- `addOperation(operation)`: assign `Date.now()` (the `now` argument) when
the timestamp is falsy, push, re-sort, clear the redo stack, debounced save. -/
def addOperation (now : Nat) (op : Operation) (s : DrawingState) :
    DrawingState × SaveEffect :=
  let op' := if op.timestamp = 0 then { op with timestamp := now } else op
  ({ drawingHistory := sortOperations (s.drawingHistory ++ [op']),
     redoStack := [] },
   SaveEffect.debounced)

/-- `updateOperationById(operation)`: falsy id → `addOperation`; otherwise
find the first index with the same id; if found, replace in place with the timestamp
chain `originalTimestamp || operation.timestamp || Date.now()`, clear redo,
debounced save; if not found, `addOperation`.  (The `getD op` default is
never used: `findIdx?` only returns in-range indices.) -/
def updateOperationById (now : Nat) (op : Operation) (s : DrawingState) :
    DrawingState × SaveEffect :=
  if op.id = 0 then addOperation now op s
  else
    match s.drawingHistory.findIdx? (fun o => o.id == op.id) with
    | some i =>
      let original := (s.drawingHistory[i]?).getD op
      let ts :=
        if original.timestamp ≠ 0 then original.timestamp
        else if op.timestamp ≠ 0 then op.timestamp
        else now
      ({ drawingHistory := s.drawingHistory.set i { op with timestamp := ts },
         redoStack := [] },
       SaveEffect.debounced)
    | none => addOperation now op s

/-- `undo()`: empty history → `{success:false}` (modelled as `none`, no save);
otherwise pop the positional tail of `drawingHistory`, push it on
`redoStack`, debounced save, return the undone operation. -/
def undo (s : DrawingState) : DrawingState × SaveEffect × Option Operation :=
  match s.drawingHistory.getLast? with
  | none => (s, SaveEffect.noSave, none)
  | some op =>
    ({ drawingHistory := s.drawingHistory.dropLast,
       redoStack := s.redoStack ++ [op] },
     SaveEffect.debounced, some op)

/-- `redo()`: empty redo stack → `{success:false}`; otherwise pop the redo
stack, push the operation back onto `drawingHistory`, re-sort, debounced
save, return the redone operation. -/
def redo (s : DrawingState) : DrawingState × SaveEffect × Option Operation :=
  match s.redoStack.getLast? with
  | none => (s, SaveEffect.noSave, none)
  | some op =>
    ({ drawingHistory := sortOperations (s.drawingHistory ++ [op]),
       redoStack := s.redoStack.dropLast },
     SaveEffect.debounced, some op)

/-- `clear()`: empty both arrays and save immediately (`saveToDisk()`). -/
def clear (_s : DrawingState) : DrawingState × SaveEffect :=
  ({ drawingHistory := [], redoStack := [] }, SaveEffect.immediate)

/-- `getHistory()`: defensive copy of the history (copying is the identity
on immutable lists). -/
def getHistory (s : DrawingState) : List Operation := s.drawingHistory

/-! ### DrawingState: load-from-disk fallback (loadFromDisk) -/

/-- A successfully `JSON.parse`d file body: an array of operations, or some
other JSON value (`typeof` not an array). -/
inductive JsonContent where
  | arr (ops : List Operation)
  | nonArray
deriving DecidableEq, Repr

/-- Observable state of one on-disk file for `loadFromDisk`:
missing (`fs.existsSync` false), unreadable (`readFileSync` throws),
malformed (`JSON.parse` throws), or parseable JSON. -/
inductive FileState where
  | absent
  | unreadable
  | malformed
  | json (v : JsonContent)
deriving DecidableEq, Repr

/-- What `this.drawingHistory` holds after `loadFromDisk`: an operation
array, or (via the unvalidated backup branch) a non-array JSON value. -/
inductive LoadedHistory where
  | hist (ops : List Operation)
  | nonArrayAssigned
deriving DecidableEq, Repr

/-- `loadFromDisk()`, as a function of the primary file state, the `.backup`
file state, and the history the instance held before the call (`[]` at
construction).  Tracing the source: a present, readable, parseable primary
is used when it is an array (sorted), and silently replaced by `[]` when it
is not an array; only a thrown error (unreadable file or malformed JSON)
enters the `catch` block, which consults the backup: an existing backup is
`JSON.parse`d and assigned without any array check or sort, a missing
backup leaves the history untouched, and a backup that throws sets `[]`. -/
def loadFromDisk (primary backup : FileState) (hist0 : List Operation) :
    LoadedHistory :=
  match primary with
  | FileState.absent => LoadedHistory.hist hist0
  | FileState.json (JsonContent.arr l) => LoadedHistory.hist (sortOperations l)
  | FileState.json JsonContent.nonArray => LoadedHistory.hist []
  | FileState.unreadable | FileState.malformed =>
    match backup with
    | FileState.absent => LoadedHistory.hist hist0
    | FileState.json (JsonContent.arr l) => LoadedHistory.hist l
    | FileState.json JsonContent.nonArray => LoadedHistory.nonArrayAssigned
    | FileState.unreadable | FileState.malformed => LoadedHistory.hist []

/-! ### DrawingState: room-name sanitization and file paths -/

/-- The character class `[a-zA-Z0-9_-]` of `sanitizeRoomName`. -/
def isFileSafeChar (c : Char) : Bool :=
  decide ('a' ≤ c ∧ c ≤ 'z') || decide ('A' ≤ c ∧ c ≤ 'Z') ||
    decide ('0' ≤ c ∧ c ≤ '9') || decide (c = '_') || decide (c = '-')

/-- `sanitizeRoomName(name)`: `name.replace(/[^a-zA-Z0-9_-]/g, '_')` —
every character outside the safe class becomes `_`. -/
def sanitizeRoomName (name : String) : String :=
  ⟨name.data.map (fun c => if isFileSafeChar c then c else '_')⟩

/-- The per-room persistence path
`path.join(dataDir, sanitizeRoomName(roomName) + '.json')`. -/
def roomFilePath (dataDir roomName : String) : String :=
  dataDir ++ "/" ++ sanitizeRoomName roomName ++ ".json"

/-! ### RoomManager (src/server/rooms.js)

Identifiers from the socket handshake query (`roomName`, `username`,
`color`, `sessionId`) and socket ids are modelled as `Nat`, with `0` for a
JS-falsy value (absent / empty string).  The per-room `DrawingState` and
`lastOperationTime` fields never influence membership or the broadcasts
modelled here and are omitted from the room record; JS `Map`s become
association lists with `Map` insertion-order semantics (`set` updates in
place or appends, `delete` removes the unique entry). -/

/-- A connected user as built in `handleConnection`. -/
structure RMUser where
  id : Nat
  name : Nat
  color : Nat
  sessionId : Nat
deriving DecidableEq, Repr

/-- `Map.set`: replace in place if the key exists, else append. -/
def alistSet (k : Nat) (v : α) : List (Nat × α) → List (Nat × α)
  | [] => [(k, v)]
  | (k', v') :: rest =>
    if k' = k then (k, v) :: rest else (k', v') :: alistSet k v rest

/-- `Map.get`: first binding of the key, if any. -/
def alistGet? (k : Nat) : List (Nat × α) → Option α
  | [] => none
  | (k', v') :: rest => if k' = k then some v' else alistGet? k rest

/-- `Map.delete`: remove the (unique) binding of the key. -/
def alistErase (k : Nat) : List (Nat × α) → List (Nat × α)
  | [] => []
  | (k', v') :: rest => if k' = k then rest else (k', v') :: alistErase k rest

/-- The `RoomManager` state.  `rooms` maps a room name to its member map
(socket id → user); `userSessions` maps a session id to `{roomName, user}`;
`connections` records, per socket id, the `(roomName, user)` pair captured
by the handlers that `setupSocketHandlers` registered for that socket;
`pendingLeaves` holds the scheduled 5 s disconnect grace timers (socket id,
room name, captured user); `pendingCleanups` holds the scheduled 30 s
empty-room deletion timers. -/
structure RMState where
  rooms : List (Nat × List (Nat × RMUser))
  userSessions : List (Nat × Nat × RMUser)
  connections : List (Nat × Nat × RMUser)
  pendingLeaves : List (Nat × Nat × RMUser)
  pendingCleanups : List Nat
deriving DecidableEq, Repr

/-- The empty manager (`new RoomManager(io)`). -/
def rmInit : RMState := ⟨[], [], [], [], []⟩

/-- The outbound messages the embedded handlers emit.  `errorMissing` is the
`'error'`/`Missing connection parameters` emit to one socket;
`roomsListTo` is a `server:rooms:list` sent to one socket, `roomsListAll`
the global `io.emit` broadcast of the same message. -/
inductive RMMsg where
  | errorMissing (dst : Nat)
  | reconnectedMsg (dst : Nat)
  | usersLoad (room : Nat) (users : List RMUser)
  | historyLoad (dst : Nat)
  | roomsListTo (dst : Nat)
  | roomsListAll
  | userJoined (room : Nat) (u : RMUser)
  | userLeft (room : Nat) (u : RMUser)
deriving DecidableEq, Repr

/-- `leaveRoom(socket, roomName, user)`: missing room → no-op; otherwise
delete the socket from the member map, emit `user:left` and the updated
`users:load`; if the room became empty schedule the 30 s cleanup timer,
else broadcast the global rooms list immediately. -/
def leaveRoom (socketId roomName : Nat) (u : RMUser) (st : RMState) :
    RMState × List RMMsg :=
  match alistGet? roomName st.rooms with
  | none => (st, [])
  | some users =>
    let users' := alistErase socketId users
    let st' := { st with rooms := alistSet roomName users' st.rooms }
    if users'.isEmpty then
      ({ st' with pendingCleanups := st'.pendingCleanups ++ [roomName] },
       [RMMsg.userLeft roomName u,
        RMMsg.usersLoad roomName (users'.map Prod.snd)])
    else
      (st',
       [RMMsg.userLeft roomName u,
        RMMsg.usersLoad roomName (users'.map Prod.snd),
        RMMsg.roomsListAll])

/-- `joinRoom(socket, roomName, user)`: create the room if missing, `set`
the socket into the member map, emit `users:load` to the room,
`server:history:load` and `server:rooms:list` to the new socket, and
`user:joined` to the rest of the room. -/
def joinRoom (socketId roomName : Nat) (u : RMUser) (st : RMState) :
    RMState × List RMMsg :=
  let users0 := (alistGet? roomName st.rooms).getD []
  let users' := alistSet socketId u users0
  ({ st with rooms := alistSet roomName users' st.rooms },
   [RMMsg.usersLoad roomName (users'.map Prod.snd),
    RMMsg.historyLoad socketId,
    RMMsg.roomsListTo socketId,
    RMMsg.userJoined roomName u])

/-- `handleConnection(socket)`: reject (emit the error and disconnect the
never-registered socket) when `roomName`, `username` or `color` is falsy —
`sessionId` is *not* checked and defaults to the socket id; otherwise emit
`server:reconnected` when the session registry maps this token to the same
room, store the session, join the room, and register the socket's handlers
(recorded in `connections`). -/
def handleConnection (socketId roomName username color sessionId : Nat)
    (st : RMState) : RMState × List RMMsg :=
  if roomName = 0 ∨ username = 0 ∨ color = 0 then
    (st, [RMMsg.errorMissing socketId])
  else
    let u : RMUser :=
      { id := socketId, name := username, color := color,
        sessionId := if sessionId = 0 then socketId else sessionId }
    let reconMsgs :=
      match alistGet? u.sessionId st.userSessions with
      | some (rn, _) =>
        if rn = roomName then [RMMsg.reconnectedMsg socketId] else []
      | none => []
    let st1 :=
      { st with userSessions := alistSet u.sessionId (roomName, u) st.userSessions }
    let joined := joinRoom socketId roomName u st1
    ({ joined.1 with
        connections := alistSet socketId (roomName, u) joined.1.connections },
     reconMsgs ++ joined.2)

/-- The `'disconnect'` handler: schedule the 5 s grace timer capturing the
socket, room name and user of the registered connection. -/
def handleDisconnect (socketId : Nat) (st : RMState) : RMState × List RMMsg :=
  match alistGet? socketId st.connections with
  | none => (st, [])
  | some (rn, u) =>
    ({ st with pendingLeaves := st.pendingLeaves ++ [(socketId, rn, u)] }, [])

/-- The body of the disconnect grace timer: if the room still exists and
its member map still has this socket id, `leaveRoom`; otherwise nothing.
(The check is purely on the socket id — the session registry is not
consulted.) -/
def fireGrace (socketId rn : Nat) (u : RMUser) (st : RMState) :
    RMState × List RMMsg :=
  match alistGet? rn st.rooms with
  | none => (st, [])
  | some users =>
    if (alistGet? socketId users).isSome then leaveRoom socketId rn u st
    else (st, [])

/-- External events: a connect with its handshake query, a socket
disconnect, and the firings of the two kinds of scheduled timers. -/
inductive RMEvent where
  | connect (socketId roomName username color sessionId : Nat)
  | disconnect (socketId : Nat)
  | graceFire (socketId roomName : Nat) (u : RMUser)
  | cleanupFire (roomName : Nat)
deriving DecidableEq, Repr

/-- One step of the single-threaded event loop.  Timer firings are only
meaningful for timers that were actually scheduled; a firing consumes its
`pending` entry and runs the timer body from the source. -/
def step (st : RMState) : RMEvent → RMState × List RMMsg
  | RMEvent.connect s rn un c sid => handleConnection s rn un c sid st
  | RMEvent.disconnect s => handleDisconnect s st
  | RMEvent.graceFire s rn u =>
    if (s, rn, u) ∈ st.pendingLeaves then
      fireGrace s rn u
        { st with pendingLeaves := st.pendingLeaves.erase (s, rn, u) }
    else (st, [])
  | RMEvent.cleanupFire rn =>
    if rn ∈ st.pendingCleanups then
      let st' := { st with pendingCleanups := st.pendingCleanups.erase rn }
      match alistGet? rn st'.rooms with
      | some users =>
        if users.isEmpty then
          ({ st' with rooms := alistErase rn st'.rooms }, [RMMsg.roomsListAll])
        else (st', [])
      | none => (st', [])
    else (st, [])

/-- Run a trace of events, returning the final state and the per-event
output message lists. -/
def runTrace (st : RMState) : List RMEvent → RMState × List (List RMMsg)
  | [] => (st, [])
  | e :: es =>
    let out := step st e
    let rest := runTrace out.1 es
    (rest.1, out.2 :: rest.2)

/-! ## Theorems for the claims about DrawingState -/

/-- Claim C3, counterexample.  The claim says every successful `undo()` and
`redo()` triggers an immediate, non-debounced persist.  In the source both
call `this.debouncedSave()`: here a successful undo and a successful redo
each produce the `debounced` save effect, which is not `immediate`. -/
theorem c3_undo_redo_save_counterexample :
    (undo ⟨[⟨1, 5, 0⟩], []⟩).2.2 = some ⟨1, 5, 0⟩
    ∧ (undo ⟨[⟨1, 5, 0⟩], []⟩).2.1 = SaveEffect.debounced
    ∧ (redo ⟨[], [⟨1, 5, 0⟩]⟩).2.2 = some ⟨1, 5, 0⟩
    ∧ (redo ⟨[], [⟨1, 5, 0⟩]⟩).2.1 = SaveEffect.debounced
    ∧ SaveEffect.debounced ≠ SaveEffect.immediate := by
  decide

/-- Claim C3, amended: every successful `undo()` and `redo()` schedules the
same debounced save as `addOperation`/`updateOperationById`; among the
mutators only `clear()` persists immediately. -/
theorem c3_undo_redo_save_is_debounced (s : DrawingState) :
    (s.drawingHistory ≠ [] → (undo s).2.1 = SaveEffect.debounced)
    ∧ (s.redoStack ≠ [] → (redo s).2.1 = SaveEffect.debounced)
    ∧ (∀ now op, (addOperation now op s).2 = SaveEffect.debounced)
    ∧ (∀ now op, (updateOperationById now op s).2 = SaveEffect.debounced)
    ∧ (clear s).2 = SaveEffect.immediate := by
  refine ⟨fun h => ?_, fun h => ?_, fun now op => rfl, fun now op => ?_, rfl⟩
  · unfold undo
    cases hl : s.drawingHistory.getLast? with
    | none => exact absurd (List.getLast?_eq_none_iff.mp hl) h
    | some a => rfl
  · unfold redo
    cases hl : s.redoStack.getLast? with
    | none => exact absurd (List.getLast?_eq_none_iff.mp hl) h
    | some a => rfl
  · unfold updateOperationById
    split
    · rfl
    · split <;> rfl

/-- Witness for `c3_undo_redo_save_is_debounced` at a concrete state with a
nonempty history and a nonempty redo stack. -/
theorem c3_undo_redo_save_is_debounced_witness :
    (undo ⟨[⟨1, 5, 0⟩], [⟨2, 7, 0⟩]⟩).2.1 = SaveEffect.debounced
    ∧ (redo ⟨[⟨1, 5, 0⟩], [⟨2, 7, 0⟩]⟩).2.1 = SaveEffect.debounced :=
  ⟨(c3_undo_redo_save_is_debounced ⟨[⟨1, 5, 0⟩], [⟨2, 7, 0⟩]⟩).1 (by decide),
   (c3_undo_redo_save_is_debounced ⟨[⟨1, 5, 0⟩], [⟨2, 7, 0⟩]⟩).2.1 (by decide)⟩

/-- Claim C4: every `addOperation` call leaves the history non-decreasing by
timestamp (from any state, hence after every call of any call sequence),
and the scenario add A(ts=100) then B(ts=50) yields history `[B, A]`. -/
theorem c4_add_keeps_history_sorted :
    (∀ (now : Nat) (op : Operation) (s : DrawingState),
        List.Sorted tsLE (getHistory (addOperation now op s).1))
    ∧ getHistory
        (addOperation 0 ⟨2, 50, 0⟩ (addOperation 0 ⟨1, 100, 0⟩ ⟨[], []⟩).1).1
      = [⟨2, 50, 0⟩, ⟨1, 100, 0⟩] := by
  constructor
  · intro now op s
    exact List.sorted_insertionSort tsLE _
  · decide

/-- Claim C5, counterexample.  The claim says `updateOperationById` on an
operation already in the log always preserves that operation's original
timestamp.  When the stored timestamp is `0` (JS-falsy, e.g. loaded from a
file written with a zero/absent timestamp), the source's fallthrough
`originalTimestamp || operation.timestamp || Date.now()` replaces it: here
the stored op `{id 1, ts 0}` is updated to timestamp `7`, not `0`. -/
theorem c5_update_timestamp_counterexample :
    (updateOperationById 99 ⟨1, 7, 6⟩ ⟨[⟨1, 0, 5⟩], []⟩).1.drawingHistory
        = [⟨1, 7, 6⟩]
    ∧ (7 : Nat) ≠ 0 := by
  decide

/-- Claim C5, amended: when an operation with the (truthy) id exists at
index `i` and its stored timestamp is nonzero, `updateOperationById`
replaces it in place preserving that timestamp — the history is the
pointwise `set` at `i`, so the operation keeps its position and every other
index is untouched; when the id is truthy but unmatched it behaves exactly
as `addOperation`. -/
theorem c5_update_preserves_slot (now : Nat) (op : Operation) (s : DrawingState) :
    (∀ (i : Nat) (orig : Operation), op.id ≠ 0 →
        s.drawingHistory.findIdx? (fun o => o.id == op.id) = some i →
        s.drawingHistory[i]? = some orig →
        orig.timestamp ≠ 0 →
        (updateOperationById now op s).1.drawingHistory
            = s.drawingHistory.set i { op with timestamp := orig.timestamp }
          ∧ (updateOperationById now op s).1.drawingHistory[i]?
              = some { op with timestamp := orig.timestamp }
          ∧ ∀ j, j ≠ i →
              (updateOperationById now op s).1.drawingHistory[j]?
                = s.drawingHistory[j]?)
    ∧ (op.id ≠ 0 →
        s.drawingHistory.findIdx? (fun o => o.id == op.id) = none →
        updateOperationById now op s = addOperation now op s) := by
  constructor
  · intro i orig hid hfind hget hts
    have hib : i < s.drawingHistory.length := (List.getElem?_eq_some.mp hget).1
    have hmain : (updateOperationById now op s).1.drawingHistory
        = s.drawingHistory.set i { op with timestamp := orig.timestamp } := by
      unfold updateOperationById
      rw [if_neg hid, hfind]
      dsimp only
      rw [hget]
      dsimp only [Option.getD_some]
      rw [if_pos hts]
    refine ⟨hmain, ?_, ?_⟩
    · rw [hmain]
      exact List.getElem?_set_eq_of_lt _ hib
    · intro j hj
      rw [hmain]
      exact List.getElem?_set_ne (fun h => hj h.symm)
  · intro hid hnone
    unfold updateOperationById
    rw [if_neg hid, hnone]

/-- Witness for `c5_update_preserves_slot`: updating `{id 1, ts 5}` in
`[{id 1, ts 5}, {id 2, ts 9}]` with a payload carrying timestamp `3` keeps
timestamp `5` in place and leaves index `1` untouched. -/
theorem c5_update_preserves_slot_witness :
    (updateOperationById 0 ⟨1, 3, 7⟩ ⟨[⟨1, 5, 11⟩, ⟨2, 9, 12⟩], []⟩).1.drawingHistory
        = [⟨1, 5, 7⟩, ⟨2, 9, 12⟩]
    ∧ (updateOperationById 0 ⟨1, 3, 7⟩
          ⟨[⟨1, 5, 11⟩, ⟨2, 9, 12⟩], []⟩).1.drawingHistory[1]?
        = some ⟨2, 9, 12⟩ := by
  have h := (c5_update_preserves_slot 0 ⟨1, 3, 7⟩ ⟨[⟨1, 5, 11⟩, ⟨2, 9, 12⟩], []⟩).1
    0 ⟨1, 5, 11⟩ (by decide) (by decide) (by decide) (by decide)
  exact ⟨h.1.trans (by decide), (h.2.2 1 (by decide)).trans (by decide)⟩

/-- Claim C6, counterexample.  The claim says a *missing* primary file falls
back to the `.backup` copy.  In the source, a missing primary never enters
the `catch` block: with an intact array backup available, loading yields the
constructor-initial empty history, not the backup's contents. -/
theorem c6_load_fallback_counterexample :
    loadFromDisk FileState.absent
        (FileState.json (JsonContent.arr [⟨1, 5, 0⟩])) []
      = LoadedHistory.hist []
    ∧ LoadedHistory.hist ([] : List Operation)
        ≠ LoadedHistory.hist [⟨1, 5, 0⟩] := by
  decide

/-- Claim C6, amended: the backup is consulted only when reading or parsing
the primary *throws* (unreadable file or malformed JSON).  A missing
primary keeps the pre-existing (empty) history and a non-array primary
yields an empty history, both without consulting the backup; when the
backup is consulted, an array backup is used as-is, a missing backup keeps
the pre-existing history, and a throwing backup yields an empty history. -/
theorem c6_backup_only_on_primary_throw :
    (∀ (b : FileState) (h0 : List Operation),
        loadFromDisk FileState.absent b h0 = LoadedHistory.hist h0)
    ∧ (∀ (l : List Operation) (b : FileState) (h0 : List Operation),
        loadFromDisk (FileState.json (JsonContent.arr l)) b h0
          = LoadedHistory.hist (sortOperations l))
    ∧ (∀ (b : FileState) (h0 : List Operation),
        loadFromDisk (FileState.json JsonContent.nonArray) b h0
          = LoadedHistory.hist [])
    ∧ (∀ (p : FileState), (p = FileState.unreadable ∨ p = FileState.malformed) →
        (∀ (l h0 : List Operation),
            loadFromDisk p (FileState.json (JsonContent.arr l)) h0
              = LoadedHistory.hist l)
        ∧ (∀ h0, loadFromDisk p FileState.absent h0 = LoadedHistory.hist h0)
        ∧ (∀ (b : FileState), (b = FileState.unreadable ∨ b = FileState.malformed) →
            ∀ h0, loadFromDisk p b h0 = LoadedHistory.hist [])) := by
  refine ⟨fun b h0 => rfl, fun l b h0 => rfl, fun b h0 => rfl, ?_⟩
  rintro p (rfl | rfl) <;>
    exact ⟨fun l h0 => rfl, fun h0 => rfl,
      by rintro b (rfl | rfl) <;> exact fun h0 => rfl⟩

/-- Witness for `c6_backup_only_on_primary_throw`: an unreadable primary
with an intact array backup loads the backup's contents. -/
theorem c6_backup_only_on_primary_throw_witness :
    loadFromDisk FileState.unreadable
        (FileState.json (JsonContent.arr [⟨1, 5, 0⟩])) []
      = LoadedHistory.hist [⟨1, 5, 0⟩] :=
  (c6_backup_only_on_primary_throw.2.2.2 FileState.unreadable (Or.inl rfl)).1
    [⟨1, 5, 0⟩] []

/-- Claim C7: from any log state satisfying the module's ordering invariant
(`drawingHistory` timestamp-sorted) on which `undo()` succeeds (nonempty
history), `undo()` immediately followed by `redo()` restores the entire
state — in particular the history — and redo returns exactly the operation
undo removed (re-inserted by its timestamp into its original slot, which
for the popped tail is again the tail). -/
theorem c7_undo_redo_roundtrip (s : DrawingState)
    (hsorted : List.Sorted tsLE s.drawingHistory)
    (hne : s.drawingHistory ≠ []) :
    (redo (undo s).1).1 = s ∧ (redo (undo s).1).2.2 = (undo s).2.2 := by
  obtain ⟨hist, redoS⟩ := s
  simp only at hsorted hne
  have hlast : hist.getLast? = some (hist.getLast hne) :=
    List.getLast?_eq_getLast hist hne
  have hundo : undo ⟨hist, redoS⟩
      = (⟨hist.dropLast, redoS ++ [hist.getLast hne]⟩,
         SaveEffect.debounced, some (hist.getLast hne)) := by
    unfold undo
    rw [hlast]
  have hredo : redo ⟨hist.dropLast, redoS ++ [hist.getLast hne]⟩
      = (⟨sortOperations (hist.dropLast ++ [hist.getLast hne]), redoS⟩,
         SaveEffect.debounced, some (hist.getLast hne)) := by
    unfold redo
    rw [List.getLast?_concat, List.dropLast_concat]
  have hrestore : sortOperations (hist.dropLast ++ [hist.getLast hne]) = hist := by
    rw [List.dropLast_append_getLast hne]
    exact hsorted.insertionSort_eq
  rw [hundo, hredo]
  simp [hrestore, hundo]

/-- Witness for `c7_undo_redo_roundtrip` on the spec's own scenario state
`[B(ts=50), A(ts=100)]`. -/
theorem c7_undo_redo_roundtrip_witness :
    (redo (undo ⟨[⟨2, 50, 0⟩, ⟨1, 100, 0⟩], []⟩).1).1
      = ⟨[⟨2, 50, 0⟩, ⟨1, 100, 0⟩], []⟩ :=
  (c7_undo_redo_roundtrip ⟨[⟨2, 50, 0⟩, ⟨1, 100, 0⟩], []⟩
    (by decide) (by decide)).1

/-- Claim C10: `sanitizeRoomName` is not injective — the distinct room
names `"a/b"` and `"a_b"` sanitize identically, so for every data
directory they resolve to the same persistence file path. -/
theorem c10_sanitize_collision :
    ("a/b" : String) ≠ "a_b"
    ∧ sanitizeRoomName "a/b" = sanitizeRoomName "a_b"
    ∧ ∀ dataDir : String, roomFilePath dataDir "a/b" = roomFilePath dataDir "a_b" := by
  refine ⟨by decide, by decide, fun d => ?_⟩
  show d ++ "/" ++ sanitizeRoomName "a/b" ++ ".json"
      = d ++ "/" ++ sanitizeRoomName "a_b" ++ ".json"
  rw [show sanitizeRoomName "a/b" = sanitizeRoomName "a_b" from by decide]

/-! ## Theorems for the claims about RoomManager -/

/-- Claim C1, evaluated at the failing trace.  Session token 40 connects to
room 10 as socket 1, disconnects (scheduling the 5 s grace timer), and
reconnects as socket 2 before the timer fires.  Contrary to the claim, the
room's member map then still holds the stale socket 1 alongside socket 2
(membership is keyed by connection id, and the reconnect does not remove
the old entry), and the timer firing is not a no-op: it only re-checks the
socket id against the member map, so it removes socket 1 and broadcasts a
`user:left` departure even though the session had already reconnected. -/
theorem c1_grace_fire_after_reconnect_broadcasts_departure :
    alistGet? 10 (runTrace rmInit
        [RMEvent.connect 1 10 20 30 40, RMEvent.disconnect 1,
         RMEvent.connect 2 10 20 30 40]).1.rooms
      = some [(1, ⟨1, 20, 30, 40⟩), (2, ⟨2, 20, 30, 40⟩)]
    ∧ RMMsg.userLeft 10 ⟨1, 20, 30, 40⟩ ∈
        (step (runTrace rmInit
            [RMEvent.connect 1 10 20 30 40, RMEvent.disconnect 1,
             RMEvent.connect 2 10 20 30 40]).1
          (RMEvent.graceFire 1 10 ⟨1, 20, 30, 40⟩)).2 := by
  decide

/-- Claim C2, evaluated at the failing trace.  Session token 40 is in room
100 ("alpha") as socket 1 and then connects to room 200 ("beta") as socket
2.  Contrary to the claim, the room-switch connect leaves socket 1 in room
100's member map and broadcasts neither a `user:left` notice nor an updated
membership to room 100 — the old room is only cleaned up when the old
socket's disconnect grace timer later fires. -/
theorem c2_room_switch_keeps_old_room_member :
    alistGet? 1 ((alistGet? 100 (runTrace rmInit
        [RMEvent.connect 1 100 20 30 40,
         RMEvent.connect 2 200 20 30 40]).1.rooms).getD [])
      = some ⟨1, 20, 30, 40⟩
    ∧ RMMsg.userLeft 100 ⟨1, 20, 30, 40⟩ ∉
        ((runTrace rmInit
            [RMEvent.connect 1 100 20 30 40,
             RMEvent.connect 2 200 20 30 40]).2.getD 1 [])
    ∧ RMMsg.usersLoad 100 [] ∉
        ((runTrace rmInit
            [RMEvent.connect 1 100 20 30 40,
             RMEvent.connect 2 200 20 30 40]).2.getD 1 []) := by
  decide

/-- Claim C8, counterexample.  Three users join room 10; two of them leave
via disconnect grace-timer firings (which may fall well inside a single 2 s
window, e.g. when the two disconnects occur 1 s apart).  The claim says N
such events in one window yield exactly one `rooms.list` broadcast after
the window; the source has no coalescing at all — each leave broadcasts
immediately, so the trace produces two broadcasts, not one. -/
theorem c8_two_leaves_two_broadcasts :
    List.count RMMsg.roomsListAll
        (((runTrace rmInit
            [RMEvent.connect 1 10 20 30 41, RMEvent.connect 2 10 20 30 42,
             RMEvent.connect 3 10 20 30 43, RMEvent.disconnect 1,
             RMEvent.graceFire 1 10 ⟨1, 20, 30, 41⟩, RMEvent.disconnect 2,
             RMEvent.graceFire 2 10 ⟨2, 20, 30, 42⟩]).2.getD 4 [])
          ++ ((runTrace rmInit
            [RMEvent.connect 1 10 20 30 41, RMEvent.connect 2 10 20 30 42,
             RMEvent.connect 3 10 20 30 43, RMEvent.disconnect 1,
             RMEvent.graceFire 1 10 ⟨1, 20, 30, 41⟩, RMEvent.disconnect 2,
             RMEvent.graceFire 2 10 ⟨2, 20, 30, 42⟩]).2.getD 6 []))
      = 2
    ∧ (2 : Nat) ≠ 1 := by
  decide

/-- Claim C8, amended: there is no debouncing of membership-driven
`rooms.list` broadcasts.  Every grace-timer firing that actually removes a
still-registered member emits its own broadcast in the same step — exactly
one when the room stays nonempty, and none (deferred to the 30 s cleanup
timer) when the room becomes empty; N such leave events therefore produce
N immediate broadcasts, not one delayed one. -/
theorem c8_rooms_list_broadcast_per_leave (st : RMState) (s rn : Nat)
    (u : RMUser) (users : List (Nat × RMUser))
    (hpending : (s, rn, u) ∈ st.pendingLeaves)
    (hroom : alistGet? rn st.rooms = some users)
    (hmem : (alistGet? s users).isSome) :
    List.count RMMsg.roomsListAll (step st (RMEvent.graceFire s rn u)).2
      = if (alistErase s users).isEmpty then 0 else 1 := by
  unfold step
  dsimp only
  rw [if_pos hpending]
  unfold fireGrace
  dsimp only
  rw [hroom]
  dsimp only
  rw [if_pos hmem]
  unfold leaveRoom
  dsimp only
  rw [hroom]
  dsimp only
  split
  next h => simp [List.count_cons, h]
  next h => simp [List.count_cons, h]

/-- Witness for `c8_rooms_list_broadcast_per_leave`: firing the pending
grace timer of socket 1 in the three-member room 10 emits exactly one
global rooms-list broadcast. -/
theorem c8_rooms_list_broadcast_per_leave_witness :
    List.count RMMsg.roomsListAll
        (step (runTrace rmInit
            [RMEvent.connect 1 10 20 30 41, RMEvent.connect 2 10 20 30 42,
             RMEvent.connect 3 10 20 30 43, RMEvent.disconnect 1]).1
          (RMEvent.graceFire 1 10 ⟨1, 20, 30, 41⟩)).2
      = 1 :=
  (c8_rooms_list_broadcast_per_leave _ 1 10 ⟨1, 20, 30, 41⟩
      [(1, ⟨1, 20, 30, 41⟩), (2, ⟨2, 20, 30, 42⟩), (3, ⟨3, 20, 30, 43⟩)]
      (by decide) (by decide) (by decide)).trans (by decide)

/-- Claim C9, counterexample.  The claim says `onConnect` fails with
`MissingParameters` iff any of `roomName`, `displayName`, `colorTag`,
`sessionToken` is absent.  A connect with an absent session token (`0`) but
the other three fields present is accepted: no error is emitted, a session
keyed by the socket id is created, and the room gains the member. -/
theorem c9_missing_session_token_accepted :
    RMMsg.errorMissing 1 ∉ (step rmInit (RMEvent.connect 1 10 20 30 0)).2
    ∧ alistGet? 1 (step rmInit (RMEvent.connect 1 10 20 30 0)).1.userSessions
        = some (10, ⟨1, 20, 30, 1⟩)
    ∧ alistGet? 1 ((alistGet? 10
          (step rmInit (RMEvent.connect 1 10 20 30 0)).1.rooms).getD [])
        = some ⟨1, 20, 30, 1⟩ := by
  decide

/-- Claim C9, amended: the connect handler fails with the missing-parameters
error — reported to the connecting socket, which is then disconnected, with
no session created and no membership change (the state is returned
untouched) — iff `roomName`, `username` or `color` is absent;
`sessionId` is not required (it defaults to the socket id). -/
theorem c9_missing_params_iff (st : RMState) (s rn un c sid : Nat) :
    ((rn = 0 ∨ un = 0 ∨ c = 0) →
        step st (RMEvent.connect s rn un c sid) = (st, [RMMsg.errorMissing s]))
    ∧ (rn ≠ 0 → un ≠ 0 → c ≠ 0 →
        RMMsg.errorMissing s ∉ (step st (RMEvent.connect s rn un c sid)).2) := by
  constructor
  · intro h
    unfold step handleConnection
    dsimp only
    rw [if_pos h]
  · intro h1 h2 h3
    have hcond : ¬(rn = 0 ∨ un = 0 ∨ c = 0) := by
      rintro (h | h | h)
      exacts [h1 h, h2 h, h3 h]
    unfold step handleConnection joinRoom
    dsimp only
    rw [if_neg hcond]
    dsimp only
    split
    · split
      · simp
      · simp
    · simp

/-- Witness for `c9_missing_params_iff`: a connect missing its room name
fails and changes nothing, and a connect with all three required fields
(and no session token) emits no error. -/
theorem c9_missing_params_iff_witness :
    step rmInit (RMEvent.connect 1 0 20 30 40) = (rmInit, [RMMsg.errorMissing 1])
    ∧ RMMsg.errorMissing 1 ∉ (step rmInit (RMEvent.connect 1 10 20 30 0)).2 :=
  ⟨(c9_missing_params_iff rmInit 1 0 20 30 40).1 (Or.inl rfl),
   (c9_missing_params_iff rmInit 1 10 20 30 0).2
     (by decide) (by decide) (by decide)⟩

end Doodly
